import Mathlib

/-!
Verification of the regulation-analysis streaming pipeline
(`backend/onyx/server/regulation_analysis/api.py`).

The development shallow-embeds the pipeline: JSON values are an inductive
type, each external generation call is an oracle-supplied outcome (the raw
fragments the service streamed, or the exception it raised), and the
`analyze_stream` generator is a pure function from such an oracle to the
finite list of events it pushes to the caller.  `json.loads` is modelled by
an explicit parse function `jp : String → Option Json` carried by the
oracle; concrete instantiations only map a string to `some j` when `j` is
the genuine JSON parse of that string.
-/

/-- JSON values as parsed by `json.loads`.  Numbers are modelled as integers:
no property below depends on non-integral numbers. -/
inductive Json where
  | null : Json
  | bool (b : Bool) : Json
  | num (n : Int) : Json
  | str (s : String) : Json
  | arr (elems : List Json) : Json
  | obj (fields : List (String × Json)) : Json

/-- Lookup of a key in the field list of a JSON object (Python `dict` access;
`json.loads` never produces duplicate keys). -/
def lookupField (fs : List (String × Json)) (k : String) : Option Json :=
  match fs with
  | [] => none
  | (k2, v) :: rest => if k2 = k then some v else lookupField rest k

/-- Python truthiness of a parsed JSON value (`if x:`). -/
def Json.pyTruthy : Json → Bool
  | .null => false
  | .bool b => b
  | .num n => n != 0
  | .str s => s != ""
  | .arr xs => !xs.isEmpty
  | .obj fs => !fs.isEmpty

/-- Python `x[k]` / `x.get(k)` on a parsed JSON value: `none` both when the
key is missing (KeyError / default `None`) and when the value is not a dict
(TypeError / AttributeError). -/
def Json.pyIndex : Json → String → Option Json
  | .obj fs, k => lookupField fs k
  | _, _ => none

/-- Python `isinstance(x, dict) and k in x` (api.py line 413). -/
def Json.isObjWithKey : Json → String → Bool
  | .obj fs, k => (lookupField fs k).isSome
  | _, _ => false

/-- Python iteration over a parsed JSON value: lists yield their elements,
strings their one-character substrings, dicts their keys; other values raise
TypeError (`none`). -/
def Json.pyIterElems : Json → Option (List Json)
  | .arr xs => some xs
  | .str s => some (s.toList.map (fun c => Json.str (String.mk [c])))
  | .obj fs => some (fs.map (fun kv => Json.str kv.1))
  | _ => none

/-- Python `str.lower()` (the code lowercases only ASCII-ish identifiers). -/
def pyLower (s : String) : String := String.mk (s.toList.map Char.toLower)

/-- Helper for substring search: does `pat` occur at the head of `hay`? -/
def listHasPre : List Char → List Char → Bool
  | _, [] => true
  | [], _ :: _ => false
  | h :: hs, p :: ps => h == p && listHasPre hs ps

/-- Does `pat` occur anywhere in `hay`? -/
def listHasSub (hay pat : List Char) : Bool :=
  match hay with
  | [] => pat.isEmpty
  | _ :: rest => listHasPre hay pat || listHasSub rest pat

/-- Python `pat in hay` on strings. -/
def strHasSub (hay pat : String) : Bool := listHasSub hay.toList pat.toList

/-- Python `"".join` of a list of strings. -/
def concatStrs : List String → String
  | [] => ""
  | s :: rest => s ++ concatStrs rest

/-- A search document as returned by `chunks_or_sections_to_search_docs`
(the fields `find_related_documents` reads).  The float relevance score is
modelled as an integer; no property below depends on its value. -/
structure SearchDoc where
  document_id : String
  semantic_identifier : Option String
  blurb : Option String
  score : Option Int
  match_highlights : List String
deriving DecidableEq, Repr

/-- The related-document payload built at api.py lines 362-375 (the fields
relevant to the properties; `model_dump` passthrough fields that no claim
reads are represented by the original `SearchDoc` fields). -/
structure EmittedDoc where
  document_id : String
  semantic_identifier : Option String
  blurb : Option String
  relevance_explanation : String
  is_relevant : Bool
  score : Int
  match_highlights : List String
deriving DecidableEq, Repr

/-- One server-sent event of the `analyze` stream: the discriminated
`type`/`content` record the code `json.dumps`es onto the wire.  `stage`
events carry the raw LLM text for `regulation`, `article`, `citation` and
`summary` types; `related_document` events carry the structured payload. -/
inductive Event where
  | error (msg : String) : Event
  | stage (stageType : String) (content : String) : Event
  | relatedDocument (regulation article : String) (doc : EmittedDoc) : Event
deriving DecidableEq, Repr

/-- The wire `type` discriminator of an event. -/
def Event.eventType : Event → String
  | .error _ => "error"
  | .stage t _ => t
  | .relatedDocument _ _ _ => "related_document"

/-- Whether an event is an `error` event. -/
def Event.isError : Event → Bool
  | .error _ => true
  | _ => false

/-- Outcome of one call to the external generation service, as observed by
`_call_llm_with_template` (api.py lines 43-64): an exception raised before
streaming began (outer `except`, e.g. from `get_default_llms`), an exception
during streaming (line 56), or the list of `chunk.content` fragments the
stream produced (falsy contents are filtered at line 50, modelled by
filtering empty strings). -/
inductive StreamResult where
  | setupExn (msg : String) : StreamResult
  | exn (msg : String) : StreamResult
  | ok (fragments : List String) : StreamResult
deriving DecidableEq, Repr

/-- The non-falsy fragment contents collected at api.py line 50. -/
def nonEmptyChunks (fragments : List String) : List String :=
  fragments.filter (fun c => c != "")

/-- Shallow embedding of `RegulationDescriptor._call_llm_with_template`
(api.py lines 37-84): the exact finite list of events the generator yields
for a given stream outcome.  `jp` models `json.loads` (returning `none` when
parsing raises `JSONDecodeError`). -/
def callLLMWithTemplate (jp : String → Option Json) (responseType : String)
    (s : StreamResult) : List Event :=
  match s with
  | StreamResult.setupExn m =>
      [Event.error ("Error getting " ++ responseType ++ ": " ++ m)]
  | StreamResult.exn m =>
      [Event.error ("Error during LLM streaming: " ++ m)]
  | StreamResult.ok fragments =>
      let chunks := nonEmptyChunks fragments
      if chunks.isEmpty then
        [Event.error ("No response received for " ++ responseType)]
      else
        let content := concatStrs chunks
        match jp content with
        | none => [Event.error ("Invalid response format for " ++ responseType)]
        | some _ => [Event.stage responseType content]

/-- Python truthiness of an optional string (`if doc.blurb:`). -/
def pyTruthyOptStr : Option String → Bool
  | none => false
  | some s => s != ""

/-- The relevance guard of `find_related_documents` (api.py lines 335-347):
`doc_identifier` and `doc_title` are BOTH read from `semantic_identifier`
(lines 336-337), and the document is kept when either contains the
lowercased regulation name or article name as a substring. -/
def docIsRelevant (regName artName : String) (doc : SearchDoc) : Bool :=
  let docIdentifier := pyLower (doc.semantic_identifier.getD "")
  let docTitle := pyLower (doc.semantic_identifier.getD "")
  let regNameLower := pyLower regName
  let artNameLower := pyLower artName
  strHasSub docIdentifier regNameLower || strHasSub docTitle regNameLower ||
    strHasSub docIdentifier artNameLower || strHasSub docTitle artNameLower

/-- The dedup-and-filter loop of `find_related_documents` (api.py lines
329-358): iterate candidates in search order; skip a document whose id was
already accepted; skip one failing the relevance guard (without recording
its id); otherwise accept it, and stop as soon as `limit <= len(accepted)`
(the check runs AFTER appending, line 357). -/
def uniqueDocsLoop (regName artName : String) (limit : Nat)
    (docs : List SearchDoc) (seenDocs : List String) (acc : List SearchDoc) :
    List SearchDoc :=
  match docs with
  | [] => acc
  | doc :: rest =>
    if doc.document_id ∈ seenDocs then
      uniqueDocsLoop regName artName limit rest seenDocs acc
    else if !docIsRelevant regName artName doc then
      uniqueDocsLoop regName artName limit rest seenDocs acc
    else
      let acc2 := acc ++ [doc]
      if limit ≤ acc2.length then acc2
      else uniqueDocsLoop regName artName limit rest (doc.document_id :: seenDocs) acc2

/-- The relevance guard as the CLAIM words it (spec 4.4): keep a document if
its display title (`semantic_identifier`) or its indexed identifier
(`document_id`) contains the regulation name or the article identifier as a
case-insensitive substring.  Stated for comparison with `docIsRelevant`,
which is the guard the code actually implements. -/
def specRelevanceGuard (regName artName : String) (doc : SearchDoc) : Bool :=
  let title := pyLower (doc.semantic_identifier.getD "")
  let ident := pyLower doc.document_id
  let r := pyLower regName
  let a := pyLower artName
  strHasSub title r || strHasSub ident r || strHasSub title a || strHasSub ident a

/-- The payload annotation of an accepted document (api.py lines 361-375).
The `match_highlights` expression transcribes the Python
`doc.match_highlights or [doc.blurb] if doc.blurb else []`, which by
operator precedence parses as
`(doc.match_highlights or [doc.blurb]) if doc.blurb else []`. -/
def annotateDoc (regName artName : String) (doc : SearchDoc) : EmittedDoc :=
  { document_id := doc.document_id
    semantic_identifier := doc.semantic_identifier
    blurb := doc.blurb
    relevance_explanation :=
      "This document mentions " ++ regName ++ " " ++ artName ++
        " in its title/identifier"
    is_relevant := true
    score :=
      match doc.score with
      | none => 1
      | some n => if n = 0 then 1 else n
    match_highlights :=
      if pyTruthyOptStr doc.blurb then
        (if doc.match_highlights.isEmpty then [doc.blurb.getD ""]
         else doc.match_highlights)
      else [] }

/-- Association-list lookup, modelling `related_docs_map.get(key)`. -/
def mapLookup (key : String) : List (String × EmittedDoc) → Option EmittedDoc
  | [] => none
  | (k, d) :: rest => if k = key then some d else mapLookup key rest

/-- Construction of `related_docs_map` from the stage-3 event sequence
(api.py lines 478-492): for each `related_document` event, insert its
document under the key `regulation ++ ":" ++ article` only when the key is
not yet present (line 484, first-write-wins); all other event types are
skipped. -/
def buildRelatedDocsMap (acc : List (String × EmittedDoc)) :
    List Event → List (String × EmittedDoc)
  | [] => acc
  | Event.relatedDocument reg art doc :: rest =>
      let key := reg ++ ":" ++ art
      if (mapLookup key acc).isSome then buildRelatedDocsMap acc rest
      else buildRelatedDocsMap (acc ++ [(key, doc)]) rest
  | _ :: rest => buildRelatedDocsMap acc rest

/-- The document of the first `related_document` event carrying `key`. -/
def firstRelatedDoc (key : String) : List Event → Option EmittedDoc
  | [] => none
  | Event.relatedDocument reg art doc :: rest =>
      if reg ++ ":" ++ art = key then some doc else firstRelatedDoc key rest
  | _ :: rest => firstRelatedDoc key rest

/-- One observable step of a fan-out stage: a concurrent unit finishing, or
an event being released to the caller. -/
inductive TraceStep (α : Type) where
  | finished (unit : Nat) : TraceStep α
  | emitted (e : α) : TraceStep α
deriving DecidableEq, Repr

/-- Have all unit indices below `n` completed? -/
def allFinished (n : Nat) (done : List Nat) : Bool :=
  (List.range n).all (fun i => done.contains i)

/-- Operational model of the fan-out stages (api.py lines 452-461 and
530-538): `await asyncio.gather(*units)` suspends the coordinating generator
until every unit has completed, with the scheduler completing units in an
arbitrary order (`schedule`, the completion order); only once all units in
`0 .. units.length - 1` are done does the coordinator resume and emit each
unit's collected events with `for chunks, _ in results: for chunk in
chunks: yield chunk`, i.e. grouped per unit in submission order.  If some
unit never completes the coordinator stays suspended and emits nothing. -/
def gatherRun (units : List (List α)) : List Nat → List Nat → List (TraceStep α)
  | [], done =>
    if allFinished units.length done then
      (units.map (fun evs => evs.map TraceStep.emitted)).flatten
    else []
  | i :: rest, done => TraceStep.finished i :: gatherRun units rest (i :: done)

/-- The environment of one `analyze_stream` run: the shared `json.loads`
model and the outcome of every external call the run makes, indexed by the
order in which the run issues the calls of each stage.  `docEvents` is the
event sequence yielded by `find_related_documents` during stage 3 (that
generator catches its own exceptions, so it always terminates in a plain
event list). -/
structure Oracle where
  jp : String → Option Json
  regulationsStream : StreamResult
  articlesUnit : Nat → StreamResult
  docEvents : List Event
  citationsUnit : Nat → StreamResult
  summaryStream : StreamResult

/-- State after the stage-1 chunk loop (api.py lines 407-418): the chunks
yielded so far, the last successfully validated `regulations_response`, and
the pending exception message when the loop raised. -/
structure RegScan where
  events : List Event
  resp : Option Json
  exn : Option String

/-- The stage-1 chunk loop (api.py lines 407-418): each chunk is yielded
first; a `regulation` chunk with truthy content is re-parsed, and a parse
failure or a parse that is not a dict containing `regulations` raises
`Exception("Invalid regulations response format")`, aborting the loop (the
already-yielded chunks stand). -/
def regulationScan (jp : String → Option Json) (acc : Option Json) :
    List Event → RegScan
  | [] => { events := [], resp := acc, exn := none }
  | e :: rest =>
    match e with
    | Event.stage t c =>
      if t == "regulation" && c != "" then
        match jp c with
        | none =>
          { events := [e], resp := acc
            exn := some "Invalid regulations response format" }
        | some j =>
          if j.isObjWithKey "regulations" then
            let r := regulationScan jp (some j) rest
            { r with events := e :: r.events }
          else
            { events := [e], resp := some j
              exn := some "Invalid regulations response format" }
      else
        let r := regulationScan jp acc rest
        { r with events := e :: r.events }
    | _ =>
      let r := regulationScan jp acc rest
      { r with events := e :: r.events }

/-- The chunks of the stage-1 generation call (`descriptor.get_regulations`,
which forwards to `_call_llm_with_template` with type `regulation`). -/
def regulationCallEvents (o : Oracle) : List Event :=
  callLLMWithTemplate o.jp "regulation" o.regulationsStream

/-- The stage-1 loop applied to the stage-1 call's chunks. -/
def regScanOf (o : Oracle) : RegScan :=
  regulationScan o.jp none (regulationCallEvents o)

/-- The guard at api.py line 423: `not regulations_response or not
regulations_response.get('regulations')`. -/
def regulationsEmpty : Option Json → Bool
  | none => true
  | some j => !((j.pyIndex "regulations").getD Json.null).pyTruthy

/-- Outcome of stage 1: either the whole run halts with the listed stream,
or it proceeds carrying the validated response and the unit list of the
articles fan-out. -/
inductive Stage1Result where
  | halt (events : List Event) : Stage1Result
  | proceed (events : List Event) (regResp : Json) (units : List Json) : Stage1Result

/-- Stage 1 of `analyze_stream` (api.py lines 400-432): run the regulations
call, loop over its chunks, convert a loop exception into the terminal
`Analysis error` event (outer handler, line 562), emit `No valid regulations
found` and stop when the response is absent or its `regulations` value is
falsy (lines 423-426), and raise a TypeError (terminal `Analysis error`)
when `len()` is taken of a non-sized `regulations` value (line 429); the
TypeError message text is approximated, no property depends on it. -/
def stage1 (o : Oracle) : Stage1Result :=
  let scan := regScanOf o
  match scan.exn with
  | some m => Stage1Result.halt (scan.events ++ [Event.error ("Analysis error: " ++ m)])
  | none =>
    if regulationsEmpty scan.resp then
      Stage1Result.halt (scan.events ++ [Event.error "No valid regulations found"])
    else
      match scan.resp with
      | none => Stage1Result.halt (scan.events ++ [Event.error "No valid regulations found"])
      | some resp =>
        let regsVal := (resp.pyIndex "regulations").getD Json.null
        match regsVal.pyIterElems with
        | none =>
          Stage1Result.halt
            (scan.events ++ [Event.error "Analysis error: object has no len()"])
        | some units => Stage1Result.proceed scan.events resp units

/-- Python `str(KeyError(k))`, which is the repr of the missing key. -/
def pyKeyErrMsg (k : String) : String := "\x27" ++ k ++ "\x27"

/-- The per-chunk loop of `process_regulation_articles` (api.py lines
440-444): collect every chunk; re-parse the content of each `article` chunk
into `articles_response`.  The `Except.error` branch models the
`JSONDecodeError` a re-parse would raise (it escapes to the worker's own
handler); it is unreachable in a run because the chunk's content was
validated by the same parse function, and its message text is approximated. -/
def articlesScan (jp : String → Option Json) (acc : Option Json) :
    List Event → Except String (Option Json)
  | [] => Except.ok acc
  | Event.stage t c :: rest =>
    if t == "article" then
      match jp c with
      | some j => articlesScan jp (some j) rest
      | none => Except.error "Expecting value"
    else articlesScan jp acc rest
  | _ :: rest => articlesScan jp acc rest

/-- One unit of the articles fan-out, `process_regulation_articles` (api.py
lines 434-450): building the prompt reads `regulation['regulation']` (line
189), so a unit whose regulation value is not a dict with that key fails
inside its own handler and contributes a single error chunk and no article
list; otherwise the unit runs its generation call and scans the chunks. -/
def processRegulationArticles (jp : String → Option Json) (regulation : Json)
    (s : StreamResult) : List Event × Option Json :=
  match regulation.pyIndex "regulation" with
  | none =>
    ([Event.error ("Error processing articles: " ++ pyKeyErrMsg "regulation")], none)
  | some _ =>
    let evs := callLLMWithTemplate jp "article" s
    match articlesScan jp none evs with
    | Except.ok resp => (evs, resp)
    | Except.error m => ([Event.error ("Error processing articles: " ++ m)], none)

/-- The stage-2 fan-in loop (api.py lines 457-461): for each unit in
submission order, yield its chunks, then extend `article_results` with
`articles.get('articles', [])` when `articles` is truthy.  A truthy
non-dict `articles` (AttributeError on `.get`) or a non-iterable
`articles` value (TypeError on `extend`) aborts the loop; the exception is
swallowed at line 462, so the events and articles gathered so far stand. -/
def aggregateArticles : List (List Event × Option Json) → List Event × List Json
  | [] => ([], [])
  | (chunks, none) :: rest =>
    let r := aggregateArticles rest
    (chunks ++ r.1, r.2)
  | (chunks, some a) :: rest =>
    if !a.pyTruthy then
      let r := aggregateArticles rest
      (chunks ++ r.1, r.2)
    else
      match a with
      | Json.obj fs =>
        match ((lookupField fs "articles").getD (Json.arr [])).pyIterElems with
        | some items =>
          let r := aggregateArticles rest
          (chunks ++ r.1, items ++ r.2)
        | none => (chunks, [])
      | _ => (chunks, [])

/-- The per-chunk loop of `process_article_citations` (api.py lines
512-521): collect chunks; for each `citation` chunk with truthy content,
re-parse it, and when `citations_content.get('citations')` is truthy extend
the unit's citation list with it.  A re-parse failure
(`JSONDecodeError`, unreachable for the same parse function) is caught at
line 520 and the loop continues; a truthy non-dict content (AttributeError)
or non-iterable `citations` value (TypeError) escapes to the worker handler
(`Except.error`, messages approximated). -/
def citationsScan (jp : String → Option Json) (acc : List Json) :
    List Event → Except String (List Json)
  | [] => Except.ok acc
  | Event.stage t c :: rest =>
    if t == "citation" && c != "" then
      match jp c with
      | none => citationsScan jp acc rest
      | some (Json.obj fs) =>
        let v := (lookupField fs "citations").getD Json.null
        if v.pyTruthy then
          match v.pyIterElems with
          | some items => citationsScan jp (acc ++ items) rest
          | none => Except.error "citations value is not iterable"
        else citationsScan jp acc rest
      | some _ => Except.error "content has no attribute get"
    else citationsScan jp acc rest
  | _ :: rest => citationsScan jp acc rest

/-- One unit of the citations fan-out, `process_article_citations` (api.py
lines 503-528): line 506 reads `article['regulation']` and
`article['article']` to build the related-document lookup key (the document
found, if any, only alters the prompt text, which the embedding does not
track), so a malformed article fails inside the unit handler and contributes
a single error chunk and no citations; otherwise the unit runs its
generation call and scans the chunks. -/
def processArticleCitations (jp : String → Option Json) (article : Json)
    (s : StreamResult) : List Event × List Json :=
  match article.pyIndex "regulation" with
  | none =>
    ([Event.error ("Error processing citations: " ++ pyKeyErrMsg "regulation")], [])
  | some _ =>
    match article.pyIndex "article" with
    | none =>
      ([Event.error ("Error processing citations: " ++ pyKeyErrMsg "article")], [])
    | some _ =>
      let evs := callLLMWithTemplate jp "citation" s
      match citationsScan jp [] evs with
      | Except.ok cites => (evs, cites)
      | Except.error m => ([Event.error ("Error processing citations: " ++ m)], [])

/-- Map with the element index (the order units are submitted to
`asyncio.gather`). -/
def mapIdxGo (f : Nat → α → β) (i : Nat) : List α → List β
  | [] => []
  | a :: rest => f i a :: mapIdxGo f (i + 1) rest

/-- Map with indices starting at 0. -/
def mapIdxL (f : Nat → α → β) (l : List α) : List β := mapIdxGo f 0 l

/-- The articles fan-out: one `process_regulation_articles` unit per element
of the regulations list, in submission order (api.py line 453). -/
def stage2Results (o : Oracle) (units : List Json) : List (List Event × Option Json) :=
  mapIdxL (fun i reg => processRegulationArticles o.jp reg (o.articlesUnit i)) units

/-- The citations fan-out: one `process_article_citations` unit per
accumulated article, in submission order (api.py line 531). -/
def stage4Results (o : Oracle) (arts : List Json) : List (List Event × List Json) :=
  mapIdxL (fun i art => processArticleCitations o.jp art (o.citationsUnit i)) arts

/-- The whole `analyze_stream` run (api.py lines 398-562): the emitted event
stream, the accumulated `article_results`, and the accumulated
`citation_results`.  After stage 1 proceeds: the stage-2 fan-out and fan-in;
stage 3 (document search, emitting `docEvents` and populating the
first-write-wins lookup) exactly when `article_results` is non-empty (line
466; `regulations_response` is a non-empty dict here, hence truthy); the
stage-4 fan-out and fan-in (its aggregation loop, lines 535-538, cannot
raise because each unit returns a genuine list); and the unconditional
summary call (lines 546-552). -/
def pipelineRun (o : Oracle) : List Event × List Json × List Json :=
  match stage1 o with
  | Stage1Result.halt evs => (evs, [], [])
  | Stage1Result.proceed evs _resp units =>
    let agg := aggregateArticles (stage2Results o units)
    let docsEvs := if agg.2.isEmpty then [] else o.docEvents
    let res4 := stage4Results o agg.2
    (evs ++ agg.1 ++ docsEvs ++ (res4.map Prod.fst).flatten ++
       callLLMWithTemplate o.jp "summary" o.summaryStream,
     agg.2,
     (res4.map Prod.snd).flatten)

/-- The event stream `analyze_stream` pushes to the caller. -/
def analyzeStream (o : Oracle) : List Event := (pipelineRun o).1

/-- The `article_results` list accumulated by the run. -/
def articleResults (o : Oracle) : List Json := (pipelineRun o).2.1

/-- The `citation_results` list the run forwards to the summary call. -/
def citationResults (o : Oracle) : List Json := (pipelineRun o).2.2

/-- The (regulation, article) key pair of an article or citation object,
when both fields are present. -/
def jsonKeyPair (j : Json) : Option (Json × Json) :=
  match j.pyIndex "regulation", j.pyIndex "article" with
  | some r, some a => some (r, a)
  | _, _ => none

/-! ### Concrete runs used by counterexamples and witnesses -/

/-- Raw stage-1 output naming one regulation, GDPR. -/
def regGDPRStr : String := "\x7b\"regulations\": [\x7b\"regulation\": \"GDPR\"\x7d]\x7d"

/-- The JSON parse of `regGDPRStr`. -/
def regGDPRJson : Json :=
  Json.obj [("regulations", Json.arr [Json.obj [("regulation", Json.str "GDPR")]])]

/-- Raw stage-2 output with an empty article list. -/
def artEmptyStr : String := "\x7b\"articles\": []\x7d"

/-- The JSON parse of `artEmptyStr`. -/
def artEmptyJson : Json := Json.obj [("articles", Json.arr [])]

/-- The raw text of an empty JSON object. -/
def emptyObjStr : String := "\x7b\x7d"

/-- `json.loads` restricted to the strings occurring in run A; each string is
mapped to its genuine JSON parse, everything else is rejected. -/
def jpA : String → Option Json := fun s =>
  if s = regGDPRStr then some regGDPRJson
  else if s = artEmptyStr then some artEmptyJson
  else if s = emptyObjStr then some (Json.obj [])
  else none

/-- Run A: stage 1 yields one regulation, the articles call returns an empty
article list, the summary call succeeds. -/
def oracleA : Oracle :=
  { jp := jpA
    regulationsStream := StreamResult.ok [regGDPRStr]
    articlesUnit := fun _ => StreamResult.ok [artEmptyStr]
    docEvents := []
    citationsUnit := fun _ => StreamResult.ok [emptyObjStr]
    summaryStream := StreamResult.ok [emptyObjStr] }

/-- Run B: the stage-1 generation call streams zero fragments. -/
def oracleB : Oracle :=
  { jp := fun _ => none
    regulationsStream := StreamResult.ok []
    articlesUnit := fun _ => StreamResult.ok []
    docEvents := []
    citationsUnit := fun _ => StreamResult.ok []
    summaryStream := StreamResult.ok [] }

/-- `json.loads` for run C: only the string of an empty JSON array parses. -/
def jpC : String → Option Json := fun s =>
  if s = "[]" then some (Json.arr []) else none

/-- Run C: the stage-1 call returns valid JSON that is not a dict with a
`regulations` key. -/
def oracleC : Oracle :=
  { jp := jpC
    regulationsStream := StreamResult.ok ["[]"]
    articlesUnit := fun _ => StreamResult.ok []
    docEvents := []
    citationsUnit := fun _ => StreamResult.ok []
    summaryStream := StreamResult.ok [] }

/-- `json.loads` for run D: the articles output "not json" is rejected. -/
def jpD : String → Option Json := fun s =>
  if s = regGDPRStr then some regGDPRJson
  else if s = emptyObjStr then some (Json.obj [])
  else none

/-- Run D: stage 1 succeeds, the articles call for the single regulation
returns text that is not valid JSON, the summary call succeeds. -/
def oracleD : Oracle :=
  { jp := jpD
    regulationsStream := StreamResult.ok [regGDPRStr]
    articlesUnit := fun _ => StreamResult.ok ["not json"]
    docEvents := []
    citationsUnit := fun _ => StreamResult.ok [emptyObjStr]
    summaryStream := StreamResult.ok [emptyObjStr] }

/-- Raw stage-1 output naming one regulation, R. -/
def regRStr : String := "\x7b\"regulations\": [\x7b\"regulation\": \"R\"\x7d]\x7d"

/-- The JSON parse of `regRStr`. -/
def regRJson : Json :=
  Json.obj [("regulations", Json.arr [Json.obj [("regulation", Json.str "R")]])]

/-- Raw stage-2 output with one article (R, A). -/
def artRAStr : String :=
  "\x7b\"articles\": [\x7b\"regulation\": \"R\", \"article\": \"A\"\x7d]\x7d"

/-- The article object (R, A). -/
def artRAJson : Json :=
  Json.obj [("regulation", Json.str "R"), ("article", Json.str "A")]

/-- The JSON parse of `artRAStr`. -/
def artListRAJson : Json := Json.obj [("articles", Json.arr [artRAJson])]

/-- Raw stage-4 output whose single citation carries the key (X, Y), which
matches no emitted article. -/
def citXYStr : String :=
  "\x7b\"citations\": [\x7b\"regulation\": \"X\", \"article\": \"Y\", \"citation\": \"c\"\x7d]\x7d"

/-- The citation object (X, Y). -/
def citXYJson : Json :=
  Json.obj [("regulation", Json.str "X"), ("article", Json.str "Y"),
    ("citation", Json.str "c")]

/-- The JSON parse of `citXYStr`. -/
def citListXYJson : Json := Json.obj [("citations", Json.arr [citXYJson])]

/-- `json.loads` restricted to the strings occurring in run E. -/
def jpE : String → Option Json := fun s =>
  if s = regRStr then some regRJson
  else if s = artRAStr then some artListRAJson
  else if s = citXYStr then some citListXYJson
  else if s = emptyObjStr then some (Json.obj [])
  else none

/-- Run E: stage 1 yields regulation R, stage 2 yields article (R, A), and
the citations call for that article returns a citation keyed (X, Y). -/
def oracleE : Oracle :=
  { jp := jpE
    regulationsStream := StreamResult.ok [regRStr]
    articlesUnit := fun _ => StreamResult.ok [artRAStr]
    docEvents := []
    citationsUnit := fun _ => StreamResult.ok [citXYStr]
    summaryStream := StreamResult.ok [emptyObjStr] }

/-- Raw stage-1 output naming two regulations, R1 and R2. -/
def regR12Str : String :=
  "\x7b\"regulations\": [\x7b\"regulation\": \"R1\"\x7d, \x7b\"regulation\": \"R2\"\x7d]\x7d"

/-- The JSON parse of `regR12Str`. -/
def regR12Json : Json :=
  Json.obj [("regulations", Json.arr
    [Json.obj [("regulation", Json.str "R1")],
     Json.obj [("regulation", Json.str "R2")]])]

/-- Raw stage-2 output with one article (R2, A). -/
def artR2AStr : String :=
  "\x7b\"articles\": [\x7b\"regulation\": \"R2\", \"article\": \"A\"\x7d]\x7d"

/-- The article object (R2, A). -/
def artR2AJson : Json :=
  Json.obj [("regulation", Json.str "R2"), ("article", Json.str "A")]

/-- The JSON parse of `artR2AStr`. -/
def artListR2AJson : Json := Json.obj [("articles", Json.arr [artR2AJson])]

/-- `json.loads` restricted to the strings occurring in run F; the
articles output "bad!" and the citations output "worse!" are rejected. -/
def jpF : String → Option Json := fun s =>
  if s = regR12Str then some regR12Json
  else if s = artR2AStr then some artListR2AJson
  else if s = emptyObjStr then some (Json.obj [])
  else none

/-- Run F: stage 1 yields two regulations; the articles call of unit 0
returns text that is not valid JSON while unit 1 yields article (R2, A);
the citations call for that article also returns invalid text; the summary
call succeeds. -/
def oracleF : Oracle :=
  { jp := jpF
    regulationsStream := StreamResult.ok [regR12Str]
    articlesUnit := fun i =>
      if i = 0 then StreamResult.ok ["bad!"] else StreamResult.ok [artR2AStr]
    docEvents := []
    citationsUnit := fun _ => StreamResult.ok ["worse!"]
    summaryStream := StreamResult.ok [emptyObjStr] }

/-- A candidate document relevant to GDPR by its title. -/
def docGdprGuide : SearchDoc :=
  { document_id := "d1", semantic_identifier := some "gdpr overview"
    blurb := none, score := none, match_highlights := [] }

/-- A second candidate with the same document identifier. -/
def docGdprGuideDup : SearchDoc :=
  { document_id := "d1", semantic_identifier := some "gdpr overview encore"
    blurb := none, score := none, match_highlights := [] }

/-- A candidate whose indexed identifier mentions GDPR but whose display
title does not. -/
def docIdOnlyMatch : SearchDoc :=
  { document_id := "GDPR-Art5-main", semantic_identifier := some "zzz"
    blurb := none, score := none, match_highlights := [] }

/-- A candidate for which the search service supplied highlights but no
excerpt. -/
def docHighlightsNoBlurb : SearchDoc :=
  { document_id := "d9", semantic_identifier := some "Reg X handbook"
    blurb := none, score := none, match_highlights := ["Reg X applies"] }

/-! ### Helper lemmas -/

theorem str_empty_append (s : String) : "" ++ s = s := by
  cases s
  rfl

theorem concatStrs_nonEmptyChunks (frags : List String) :
    concatStrs (nonEmptyChunks frags) = concatStrs frags := by
  induction frags with
  | nil => rfl
  | cons s rest ih =>
    by_cases hs : s = ""
    · subst hs
      simp only [nonEmptyChunks, List.filter] at *
      simp only [bne_self_eq_false] at *
      rw [ih]
      rw [concatStrs, str_empty_append]
    · simp only [nonEmptyChunks, List.filter] at *
      have : (s != "") = true := bne_iff_ne.mpr hs
      rw [this]
      rw [concatStrs, concatStrs, ih]

theorem str_append_ne_empty (s t : String) (hs : s ≠ "") : s ++ t ≠ "" := by
  cases s with
  | mk data =>
    cases data with
    | nil => exact absurd rfl hs
    | cons c cs =>
      intro h
      have hdata : (String.mk (c :: cs) ++ t).data = ("" : String).data :=
        congrArg String.data h
      simp [String.append] at hdata

theorem concatStrs_ne_empty (x : String) (xs : List String) (hx : x ≠ "") :
    concatStrs (x :: xs) ≠ "" := by
  rw [concatStrs]
  exact str_append_ne_empty x (concatStrs xs) hx

/-- Case shape of one generation call: it always yields exactly one event,
an error event or a stage event whose content is the non-empty validated
concatenation. -/
theorem callLLM_shape (jp : String → Option Json) (rt : String) (s : StreamResult) :
    ∃ e, callLLMWithTemplate jp rt s = [e] ∧
      ((∃ m, e = Event.error m) ∨
       (∃ c j, jp c = some j ∧ c ≠ "" ∧ e = Event.stage rt c)) := by
  cases s with
  | setupExn m =>
    exact ⟨Event.error ("Error getting " ++ rt ++ ": " ++ m), rfl, Or.inl ⟨_, rfl⟩⟩
  | exn m =>
    exact ⟨Event.error ("Error during LLM streaming: " ++ m), rfl, Or.inl ⟨_, rfl⟩⟩
  | ok frags =>
    match hc : nonEmptyChunks frags with
    | [] =>
      refine ⟨Event.error ("No response received for " ++ rt), ?_, Or.inl ⟨_, rfl⟩⟩
      simp [callLLMWithTemplate, hc]
    | x :: xs =>
      have hx : x ≠ "" := by
        have hmem : x ∈ nonEmptyChunks frags := by
          rw [hc]; exact List.mem_cons_self x xs
        exact bne_iff_ne.mp (List.mem_filter.mp hmem).2
      have hne : concatStrs (x :: xs) ≠ "" := concatStrs_ne_empty x xs hx
      cases hj : jp (concatStrs (x :: xs)) with
      | none =>
        refine ⟨Event.error ("Invalid response format for " ++ rt), ?_, Or.inl ⟨_, rfl⟩⟩
        simp [callLLMWithTemplate, hc, hj]
      | some j =>
        refine ⟨Event.stage rt (concatStrs (x :: xs)), ?_,
          Or.inr ⟨concatStrs (x :: xs), j, hj, hne, rfl⟩⟩
        simp [callLLMWithTemplate, hc, hj]

theorem mapLookup_append (key : String) (l1 l2 : List (String × EmittedDoc)) :
    mapLookup key (l1 ++ l2) =
      (match mapLookup key l1 with
       | some d => some d
       | none => mapLookup key l2) := by
  induction l1 with
  | nil => rfl
  | cons kd rest ih =>
    obtain ⟨k, d⟩ := kd
    by_cases hk : k = key
    · simp [mapLookup, hk]
    · simp [mapLookup, hk, ih]

theorem buildMap_lookup_of_some (key : String) (d : EmittedDoc) :
    ∀ (evs : List Event) (acc : List (String × EmittedDoc)),
      mapLookup key acc = some d →
      mapLookup key (buildRelatedDocsMap acc evs) = some d := by
  intro evs
  induction evs with
  | nil => intro acc h; exact h
  | cons e rest ih =>
    intro acc h
    cases e with
    | error m => exact ih acc h
    | stage t c => exact ih acc h
    | relatedDocument reg art doc =>
      simp only [buildRelatedDocsMap]
      by_cases hs : (mapLookup (reg ++ ":" ++ art) acc).isSome
      · rw [if_pos hs]
        exact ih acc h
      · rw [if_neg hs]
        apply ih
        rw [mapLookup_append, h]

theorem buildMap_lookup_of_none (key : String) :
    ∀ (evs : List Event) (acc : List (String × EmittedDoc)),
      mapLookup key acc = none →
      mapLookup key (buildRelatedDocsMap acc evs) = firstRelatedDoc key evs := by
  intro evs
  induction evs with
  | nil => intro acc h; exact h
  | cons e rest ih =>
    intro acc h
    cases e with
    | error m => exact ih acc h
    | stage t c => exact ih acc h
    | relatedDocument reg art doc =>
      simp only [buildRelatedDocsMap, firstRelatedDoc]
      by_cases hk : reg ++ ":" ++ art = key
      · rw [if_pos hk]
        subst hk
        rw [if_neg (by rw [h]; simp)]
        apply buildMap_lookup_of_some
        rw [mapLookup_append, h]
        simp [mapLookup]
      · rw [if_neg hk]
        by_cases hs : (mapLookup (reg ++ ":" ++ art) acc).isSome
        · rw [if_pos hs]
          exact ih acc h
        · rw [if_neg hs]
          apply ih
          rw [mapLookup_append, h]
          simp [mapLookup, hk]

theorem gatherRun_eq {α : Type} (units : List (List α)) :
    ∀ (schedule done : List Nat),
      gatherRun units schedule done =
        schedule.map TraceStep.finished ++
          (if allFinished units.length (schedule.reverse ++ done) then
            (units.map (fun evs => evs.map TraceStep.emitted)).flatten
          else []) := by
  intro schedule
  induction schedule with
  | nil => intro done; simp [gatherRun]
  | cons i rest ih =>
    intro done
    simp only [gatherRun, ih (i :: done), List.map_cons, List.cons_append,
      List.reverse_cons, List.append_assoc, List.singleton_append,
      List.nil_append]

theorem uniqueDocsLoop_length (regName artName : String) (limit : Nat) :
    ∀ (docs : List SearchDoc) (seenDocs : List String) (acc : List SearchDoc),
      acc.length < limit →
      (uniqueDocsLoop regName artName limit docs seenDocs acc).length ≤ limit := by
  intro docs
  induction docs with
  | nil => intro seenDocs acc h; simpa [uniqueDocsLoop] using Nat.le_of_lt h
  | cons doc rest ih =>
    intro seenDocs acc h
    simp only [uniqueDocsLoop]
    by_cases h1 : doc.document_id ∈ seenDocs
    · rw [if_pos h1]; exact ih seenDocs acc h
    · rw [if_neg h1]
      by_cases h2 : docIsRelevant regName artName doc
      · simp only [h2, Bool.not_true, if_false, Bool.false_eq_true]
        by_cases h3 : limit ≤ (acc ++ [doc]).length
        · rw [if_pos h3]
          simpa using h
        · rw [if_neg h3]
          exact ih _ _ (Nat.lt_of_not_le h3)
      · simp only [Bool.not_eq_true] at h2
        simp only [h2, Bool.not_false, if_true]
        exact ih seenDocs acc h

theorem uniqueDocsLoop_sublist (regName artName : String) (limit : Nat) :
    ∀ (docs : List SearchDoc) (seenDocs : List String) (acc : List SearchDoc),
      ∃ s, uniqueDocsLoop regName artName limit docs seenDocs acc = acc ++ s ∧
        s.Sublist docs := by
  intro docs
  induction docs with
  | nil =>
    intro seenDocs acc
    exact ⟨[], by simp [uniqueDocsLoop], List.Sublist.refl []⟩
  | cons doc rest ih =>
    intro seenDocs acc
    simp only [uniqueDocsLoop]
    by_cases h1 : doc.document_id ∈ seenDocs
    · rw [if_pos h1]
      obtain ⟨s, hs, hsub⟩ := ih seenDocs acc
      exact ⟨s, hs, hsub.cons doc⟩
    · rw [if_neg h1]
      by_cases h2 : docIsRelevant regName artName doc
      · simp only [h2, Bool.not_true, if_false, Bool.false_eq_true]
        by_cases h3 : limit ≤ (acc ++ [doc]).length
        · rw [if_pos h3]
          exact ⟨[doc], rfl, (List.nil_sublist rest).cons₂ doc⟩
        · rw [if_neg h3]
          obtain ⟨s, hs, hsub⟩ := ih (doc.document_id :: seenDocs) (acc ++ [doc])
          refine ⟨doc :: s, ?_, hsub.cons₂ doc⟩
          rw [hs, List.append_assoc, List.singleton_append]
      · simp only [Bool.not_eq_true] at h2
        simp only [h2, Bool.not_false, if_true]
        obtain ⟨s, hs, hsub⟩ := ih seenDocs acc
        exact ⟨s, hs, hsub.cons doc⟩

theorem uniqueDocsLoop_nodup (regName artName : String) (limit : Nat) :
    ∀ (docs : List SearchDoc) (seenDocs : List String) (acc : List SearchDoc),
      (acc.map SearchDoc.document_id).Nodup →
      (∀ d ∈ acc, d.document_id ∈ seenDocs) →
      ((uniqueDocsLoop regName artName limit docs seenDocs acc).map
        SearchDoc.document_id).Nodup := by
  intro docs
  induction docs with
  | nil => intro seenDocs acc hnd _; simpa [uniqueDocsLoop] using hnd
  | cons doc rest ih =>
    intro seenDocs acc hnd hseen
    simp only [uniqueDocsLoop]
    by_cases h1 : doc.document_id ∈ seenDocs
    · rw [if_pos h1]; exact ih seenDocs acc hnd hseen
    · rw [if_neg h1]
      by_cases h2 : docIsRelevant regName artName doc
      · have hnotin : doc.document_id ∉ acc.map SearchDoc.document_id := by
          intro hmem
          obtain ⟨d, hd, hdid⟩ := List.mem_map.mp hmem
          exact h1 (hdid ▸ hseen d hd)
        have hnd2 : ((acc ++ [doc]).map SearchDoc.document_id).Nodup := by
          rw [List.map_append]
          rw [List.nodup_append]
          exact ⟨hnd, List.nodup_singleton _, by
            intro a ha hb
            simp only [List.map_cons, List.map_nil, List.mem_singleton] at hb
            exact hnotin (hb ▸ ha)⟩
        simp only [h2, Bool.not_true, if_false, Bool.false_eq_true]
        by_cases h3 : limit ≤ (acc ++ [doc]).length
        · rw [if_pos h3]; exact hnd2
        · rw [if_neg h3]
          apply ih _ _ hnd2
          intro d hd
          rcases List.mem_append.mp hd with hda | hdb
          · exact List.mem_cons_of_mem _ (hseen d hda)
          · simp only [List.mem_singleton] at hdb
            subst hdb
            exact List.mem_cons_self _ _
      · simp only [Bool.not_eq_true] at h2
        simp only [h2, Bool.not_false, if_true]
        exact ih seenDocs acc hnd hseen

theorem regulationScan_singleton_error (jp : String → Option Json) (m : String) :
    regulationScan jp none [Event.error m] =
      { events := [Event.error m], resp := none, exn := none } := rfl

theorem regulationScan_singleton_stage (jp : String → Option Json)
    (c : String) (j : Json) (hc : c ≠ "") (hj : jp c = some j) :
    regulationScan jp none [Event.stage "regulation" c] =
      (if j.isObjWithKey "regulations" then
        { events := [Event.stage "regulation" c], resp := some j, exn := none }
      else
        { events := [Event.stage "regulation" c], resp := some j,
          exn := some "Invalid regulations response format" }) := by
  have hbne : (c != "") = true := bne_iff_ne.mpr hc
  simp only [regulationScan, hbne, Bool.and_true, hj]
  cases hk : j.isObjWithKey "regulations" <;> simp [regulationScan]

theorem stage1_of_scan_empty (o : Oracle) (ev : List Event) (resp : Option Json)
    (hscan : regScanOf o = { events := ev, resp := resp, exn := none })
    (hempty : regulationsEmpty resp = true) :
    stage1 o = Stage1Result.halt (ev ++ [Event.error "No valid regulations found"]) := by
  simp [stage1, hscan, hempty]

theorem analyzeStream_of_halt (o : Oracle) (evs : List Event)
    (h : stage1 o = Stage1Result.halt evs) : analyzeStream o = evs := by
  simp [analyzeStream, pipelineRun, h]

theorem analyzeStream_of_proceed (o : Oracle) (evs : List Event)
    (resp : Json) (units : List Json)
    (h : stage1 o = Stage1Result.proceed evs resp units) :
    analyzeStream o =
      evs ++ (aggregateArticles (stage2Results o units)).1 ++
        (if (aggregateArticles (stage2Results o units)).2.isEmpty then []
         else o.docEvents) ++
        ((stage4Results o (aggregateArticles (stage2Results o units)).2).map
          Prod.fst).flatten ++
        callLLMWithTemplate o.jp "summary" o.summaryStream := by
  simp [analyzeStream, pipelineRun, h]

theorem articleResults_of_proceed (o : Oracle) (evs : List Event)
    (resp : Json) (units : List Json)
    (h : stage1 o = Stage1Result.proceed evs resp units) :
    articleResults o = (aggregateArticles (stage2Results o units)).2 := by
  simp [articleResults, pipelineRun, h]

theorem citationResults_of_proceed (o : Oracle) (evs : List Event)
    (resp : Json) (units : List Json)
    (h : stage1 o = Stage1Result.proceed evs resp units) :
    citationResults o =
      ((stage4Results o (aggregateArticles (stage2Results o units)).2).map
        Prod.snd).flatten := by
  simp [citationResults, pipelineRun, h]

/-! ### Claim C1 -/

/-- C1: for every fan-out stage (articles per regulation at api.py lines
452-461, citations per article at lines 530-538, both modelled by
`gatherRun`) and for every order `schedule` in which the concurrent units
complete, no event of the stage is released before every unit has finished:
when the schedule completes all unit indices, the trace is all `finished`
steps followed by all `emitted` steps, and when some unit never finishes
nothing is emitted at all; moreover the released events are exactly the
units' event lists concatenated in original submission order (unit 0 fully,
then unit 1, ...), independent of the completion order — never in completion
order. -/
theorem stage_fanout_barrier_and_submission_order {α : Type}
    (units : List (List α)) (schedule : List Nat) :
    ((∀ i, i < units.length → i ∈ schedule) →
      gatherRun units schedule [] =
        schedule.map TraceStep.finished ++
          (units.map (fun evs => evs.map TraceStep.emitted)).flatten) ∧
    ((∃ i, i < units.length ∧ i ∉ schedule) →
      gatherRun units schedule [] = schedule.map TraceStep.finished) := by
  constructor
  · intro hall
    rw [gatherRun_eq]
    have hfin : allFinished units.length (schedule.reverse ++ []) = true := by
      simp only [allFinished, List.all_eq_true]
      intro i hi
      simp only [List.mem_range] at hi
      simp only [List.append_nil]
      exact List.elem_iff.mpr (List.mem_reverse.mpr (hall i hi))
    rw [hfin]
    simp
  · intro hmiss
    obtain ⟨i, hi, hnot⟩ := hmiss
    rw [gatherRun_eq]
    have hfin : allFinished units.length (schedule.reverse ++ []) = false := by
      simp only [allFinished]
      rw [List.all_eq_false]
      refine ⟨i, List.mem_range.mpr hi, ?_⟩
      simp only [List.append_nil]
      intro hcon
      exact hnot (List.mem_reverse.mp (List.elem_iff.mp hcon))
    rw [hfin]
    simp

/-- C1 witness: two units with completion order reversed from submission
order; the trace is both finishes, then unit 0's event, then unit 1's. -/
theorem stage_fanout_barrier_and_submission_order_witness :
    gatherRun [[10], [20]] [1, 0] ([] : List Nat) =
      [TraceStep.finished 1, TraceStep.finished 0,
       TraceStep.emitted 10, TraceStep.emitted 20] := by
  have h := (stage_fanout_barrier_and_submission_order [[10], [20]] [1, 0]).1
    (by decide)
  rw [h]
  rfl

/-! ### Claim C6 -/

/-- C6: the (regulation, article) → RelatedDocument lookup built by the
pipeline from the stage-3 event sequence (api.py lines 478-492) maps each
key to at most one document, namely the document of the first
`related_document` event emitted with that key; an event with an
already-present key never overwrites the stored document
(first-write-wins). -/
theorem related_docs_map_first_write_wins (evs : List Event) (key : String) :
    mapLookup key (buildRelatedDocsMap [] evs) = firstRelatedDoc key evs :=
  buildMap_lookup_of_none key evs [] rfl

/-! ### Claim C7 -/

/-- C7 counterexample: the claim quantifies over every candidate list and
every limit, but with limit 0 the loop still accepts one relevant candidate,
because the `len(unique_docs) >= limit` check only runs after appending
(api.py line 357), so the output length exceeds the limit. -/
theorem correlator_limit_zero_accepts_one_cex :
    uniqueDocsLoop "GDPR" "Art. 5" 0 [docGdprGuide] [] [] = [docGdprGuide] ∧
    ¬ (uniqueDocsLoop "GDPR" "Art. 5" 0 [docGdprGuide] [] []).length ≤ 0 := by
  constructor
  · rfl
  · decide

/-- C7 (amended): for every candidate list and every limit ≥ 1 (the claim
fails at limit 0, see the counterexample), the correlation loop outputs at
most `limit` documents, every document identifier appears at most once in
the output even when the candidate list repeats identifiers, and the output
is an in-order sublist of the candidate list (candidates are considered in
the order returned by the search service, and acceptance stops once `limit`
documents are accepted). -/
theorem correlator_limit_dedup_sublist (regName artName : String)
    (limit : Nat) (docs : List SearchDoc) (h : 1 ≤ limit) :
    (uniqueDocsLoop regName artName limit docs [] []).length ≤ limit ∧
    ((uniqueDocsLoop regName artName limit docs [] []).map
      SearchDoc.document_id).Nodup ∧
    (uniqueDocsLoop regName artName limit docs [] []).Sublist docs := by
  refine ⟨uniqueDocsLoop_length regName artName limit docs [] []
      (by simpa using h),
    uniqueDocsLoop_nodup regName artName limit docs [] [] (by simp)
      (by intro d hd; simp at hd), ?_⟩
  obtain ⟨s, hs, hsub⟩ := uniqueDocsLoop_sublist regName artName limit docs [] []
  rw [hs]
  simpa using hsub

/-- C7 witness: duplicate identifiers with limit 1 — the amended bound,
dedup and order properties at a concrete input. -/
theorem correlator_limit_dedup_sublist_witness :
    (uniqueDocsLoop "GDPR" "Art. 5" 1 [docGdprGuide, docGdprGuideDup] [] []).length ≤ 1 ∧
    ((uniqueDocsLoop "GDPR" "Art. 5" 1 [docGdprGuide, docGdprGuideDup] [] []).map
      SearchDoc.document_id).Nodup ∧
    (uniqueDocsLoop "GDPR" "Art. 5" 1
      [docGdprGuide, docGdprGuideDup] [] []).Sublist [docGdprGuide, docGdprGuideDup] :=
  correlator_limit_dedup_sublist "GDPR" "Art. 5" 1 [docGdprGuide, docGdprGuideDup]
    (Nat.le_refl 1)

/-! ### Claim C8 -/

/-- C8 counterexample: a document whose indexed identifier (`document_id`)
contains the regulation name is kept according to the claim
(`specRelevanceGuard`), but the code's guard reads only the display title
(`semantic_identifier`, api.py lines 336-337), so the document is judged
irrelevant and dropped from the correlation output. -/
theorem document_id_match_still_dropped_cex :
    specRelevanceGuard "GDPR" "Art. 5" docIdOnlyMatch = true ∧
    docIsRelevant "GDPR" "Art. 5" docIdOnlyMatch = false ∧
    uniqueDocsLoop "GDPR" "Art. 5" 1 [docIdOnlyMatch] [] [] = [] := ⟨rfl, rfl, rfl⟩

/-- C8 (amended): the correlation step keeps a candidate exactly when its
display title (the `semantic_identifier`, which the code also reads in place
of the indexed identifier) contains the regulation name or the article
identifier as a case-insensitive substring; the indexed `document_id` is
never consulted — changing it never changes the guard — and a document
failing the guard is dropped silently (it is simply skipped by the loop,
which emits no error event). -/
theorem relevance_guard_reads_only_semantic_identifier
    (regName artName : String) (doc : SearchDoc) (id2 : String) :
    docIsRelevant regName artName { doc with document_id := id2 } =
      docIsRelevant regName artName doc ∧
    docIsRelevant regName artName doc =
      (strHasSub (pyLower (doc.semantic_identifier.getD "")) (pyLower regName) ||
       strHasSub (pyLower (doc.semantic_identifier.getD "")) (pyLower artName)) := by
  constructor
  · rfl
  · simp only [docIsRelevant]
    cases hx : strHasSub (pyLower (doc.semantic_identifier.getD "")) (pyLower regName) <;>
      cases hy : strHasSub (pyLower (doc.semantic_identifier.getD "")) (pyLower artName) <;>
      simp

/-! ### Claim C9 -/

/-- C9: the code evaluated at the failing input — a document whose search
service supplied `match_highlights` but an empty excerpt.  The claim (and
the evident intent) is that supplied highlights are used whenever present,
but the Python expression
`doc.match_highlights or [doc.blurb] if doc.blurb else []` parses as
`(doc.match_highlights or [doc.blurb]) if doc.blurb else []`, so the
emitted payload's match-highlight field is empty even though highlights
were supplied; the synthetic relevance explanation is attached as
claimed. -/
theorem match_highlights_dropped_when_blurb_empty :
    (annotateDoc "Reg X" "Art 1" docHighlightsNoBlurb).match_highlights = [] ∧
    docHighlightsNoBlurb.match_highlights = ["Reg X applies"] ∧
    (annotateDoc "Reg X" "Art 1" docHighlightsNoBlurb).relevance_explanation =
      "This document mentions Reg X Art 1 in its title/identifier" :=
  ⟨rfl, rfl, rfl⟩

/-! ### Claim C10 -/

/-- C10: every single generation call yields exactly one stream event and
finishes: a single event of the stage's type carrying the full concatenated
raw text when the concatenation parses as JSON (in particular the service
produced at least one fragment, since the empty concatenation does not
parse, `hjp`), and a single error event otherwise — a streaming or setup
exception, or a concatenation that does not parse (which subsumes zero
fragments); never zero events and never more than one. -/
theorem generation_call_yields_exactly_one_event (jp : String → Option Json)
    (rt : String) (s : StreamResult) (hjp : jp "" = none) :
    ∃ e, callLLMWithTemplate jp rt s = [e] ∧
      ((∃ frags j, s = StreamResult.ok frags ∧
          jp (concatStrs frags) = some j ∧
          e = Event.stage rt (concatStrs frags)) ∨
       (e.isError = true ∧
         ((∃ m, s = StreamResult.exn m) ∨ (∃ m, s = StreamResult.setupExn m) ∨
          (∃ frags, s = StreamResult.ok frags ∧ jp (concatStrs frags) = none)))) := by
  cases s with
  | setupExn m =>
    exact ⟨Event.error ("Error getting " ++ rt ++ ": " ++ m), rfl,
      Or.inr ⟨rfl, Or.inr (Or.inl ⟨m, rfl⟩)⟩⟩
  | exn m =>
    exact ⟨Event.error ("Error during LLM streaming: " ++ m), rfl,
      Or.inr ⟨rfl, Or.inl ⟨m, rfl⟩⟩⟩
  | ok frags =>
    have hcc : concatStrs (nonEmptyChunks frags) = concatStrs frags :=
      concatStrs_nonEmptyChunks frags
    match hc : nonEmptyChunks frags with
    | [] =>
      refine ⟨Event.error ("No response received for " ++ rt), ?_,
        Or.inr ⟨rfl, Or.inr (Or.inr ⟨frags, rfl, ?_⟩)⟩⟩
      · simp [callLLMWithTemplate, hc]
      · rw [← hcc, hc]
        exact hjp
    | x :: xs =>
      have hcc2 : concatStrs (x :: xs) = concatStrs frags := by rw [← hc, hcc]
      cases hj : jp (concatStrs frags) with
      | none =>
        refine ⟨Event.error ("Invalid response format for " ++ rt), ?_,
          Or.inr ⟨rfl, Or.inr (Or.inr ⟨frags, rfl, hj⟩)⟩⟩
        simp [callLLMWithTemplate, hc, hcc2, hj]
      | some j =>
        refine ⟨Event.stage rt (concatStrs frags), ?_,
          Or.inl ⟨frags, j, rfl, hj, rfl⟩⟩
        simp [callLLMWithTemplate, hc, hcc2, hj]

/-- C10 witness: a call that streams zero fragments yields exactly one
(error) event. -/
theorem generation_call_yields_exactly_one_event_witness :
    ∃ e, callLLMWithTemplate (fun _ => none) "regulation" (StreamResult.ok []) = [e] ∧
      ((∃ frags j, StreamResult.ok ([] : List String) = StreamResult.ok frags ∧
          (fun (_ : String) => (none : Option Json)) (concatStrs frags) = some j ∧
          e = Event.stage "regulation" (concatStrs frags)) ∨
       (e.isError = true ∧
         ((∃ m, StreamResult.ok ([] : List String) = StreamResult.exn m) ∨
          (∃ m, StreamResult.ok ([] : List String) = StreamResult.setupExn m) ∨
          (∃ frags, StreamResult.ok ([] : List String) = StreamResult.ok frags ∧
            (fun (_ : String) => (none : Option Json)) (concatStrs frags) = none)))) :=
  generation_call_yields_exactly_one_event (fun _ => none) "regulation"
    (StreamResult.ok []) rfl

/-! ### Claim C2 -/

/-- C2 counterexample: in run A stage 1 succeeded, the article list came out
empty and zero citations were gathered, yet the stream contains a summary
event — the run did NOT terminate without making the summary call, refuting
the claim's exception clause. -/
theorem summary_event_with_empty_articles_cex :
    stage1 oracleA = Stage1Result.proceed [Event.stage "regulation" regGDPRStr]
      regGDPRJson [Json.obj [("regulation", Json.str "GDPR")]] ∧
    articleResults oracleA = [] ∧ citationResults oracleA = [] ∧
    Event.stage "summary" emptyObjStr ∈ analyzeStream oracleA := by
  refine ⟨rfl, rfl, rfl, ?_⟩
  show Event.stage "summary" emptyObjStr ∈
    [Event.stage "regulation" regGDPRStr, Event.stage "article" artEmptyStr,
     Event.stage "summary" emptyObjStr]
  exact List.mem_cons_of_mem _ (List.mem_cons_of_mem _ (List.mem_cons_self _ _))

/-- C2 (amended): for every run in which stage 1 succeeded (the validated
regulations response reached the fan-out), the summary generation call is
always attempted — even when zero citations were gathered and even when the
article list itself is empty — and the summary call's events close the
stream. -/
theorem summary_always_attempted_after_stage1 (o : Oracle)
    (evs : List Event) (resp : Json) (units : List Json)
    (h : stage1 o = Stage1Result.proceed evs resp units) :
    ∃ pre, analyzeStream o =
      pre ++ callLLMWithTemplate o.jp "summary" o.summaryStream := by
  rw [analyzeStream_of_proceed o evs resp units h]
  exact ⟨_, rfl⟩

/-- C2 witness: run A (empty article list) still ends with the summary
call's events. -/
theorem summary_always_attempted_after_stage1_witness :
    ∃ pre, analyzeStream oracleA =
      pre ++ callLLMWithTemplate oracleA.jp "summary" oracleA.summaryStream :=
  summary_always_attempted_after_stage1 oracleA
    [Event.stage "regulation" regGDPRStr] regGDPRJson
    [Json.obj [("regulation", Json.str "GDPR")]] rfl

/-! ### Claim C3 -/

/-- C3 counterexample: in run B the regulations stage yields zero regulations
because the generation call streamed no fragments; the stream then contains
TWO error events (the call's own error event is yielded at api.py line 409
before the `No valid regulations found` event), not exactly one. -/
theorem zero_regulations_two_error_events_cex :
    regulationsEmpty (regScanOf oracleB).resp = true ∧
    analyzeStream oracleB =
      [Event.error "No response received for regulation",
       Event.error "No valid regulations found"] ∧
    (analyzeStream oracleB).countP (fun e => e.isError) = 2 := ⟨rfl, rfl, rfl⟩

/-- C3 (amended): for every run whose regulations stage yields zero
regulations without raising (the parsed response is absent or its
`regulations` value is falsy), the stream is exactly the regulation call's
single event followed by a terminal `No valid regulations found` error
event, and then closes; no article, citation, related_document or summary
event ever appears.  The stream therefore contains exactly one error event
when the call produced a regulation event, and exactly two when the call
itself failed (its error event precedes the terminal one). -/
theorem zero_regulations_stream_shape (o : Oracle)
    (h1 : (regScanOf o).exn = none)
    (h2 : regulationsEmpty (regScanOf o).resp = true) :
    ∃ e, analyzeStream o = [e, Event.error "No valid regulations found"] ∧
      (e.eventType = "regulation" ∨ e.eventType = "error") ∧
      ∀ ev ∈ analyzeStream o,
        ev.eventType ≠ "article" ∧ ev.eventType ≠ "citation" ∧
        ev.eventType ≠ "related_document" ∧ ev.eventType ≠ "summary" := by
  obtain ⟨e, he, hshape⟩ := callLLM_shape o.jp "regulation" o.regulationsStream
  have hcall : regulationCallEvents o = [e] := he
  rcases hshape with ⟨m, rfl⟩ | ⟨c, j, hj, hcne, rfl⟩
  · have hscan : regScanOf o =
        { events := [Event.error m], resp := none, exn := none } := by
      simp only [regScanOf, hcall]
      exact regulationScan_singleton_error o.jp m
    have hstage := stage1_of_scan_empty o [Event.error m] none hscan rfl
    have hstream := analyzeStream_of_halt o _ hstage
    refine ⟨Event.error m, by simpa using hstream, Or.inr rfl, ?_⟩
    intro ev hm
    rw [hstream] at hm
    simp only [List.cons_append, List.nil_append, List.mem_cons,
      List.not_mem_nil, or_false] at hm
    rcases hm with rfl | rfl
    · exact ⟨fun hq => absurd hq (show ("error" : String) ≠ "article" by decide),
        fun hq => absurd hq (show ("error" : String) ≠ "citation" by decide),
        fun hq => absurd hq (show ("error" : String) ≠ "related_document" by decide),
        fun hq => absurd hq (show ("error" : String) ≠ "summary" by decide)⟩
    · exact ⟨fun hq => absurd hq (show ("error" : String) ≠ "article" by decide),
        fun hq => absurd hq (show ("error" : String) ≠ "citation" by decide),
        fun hq => absurd hq (show ("error" : String) ≠ "related_document" by decide),
        fun hq => absurd hq (show ("error" : String) ≠ "summary" by decide)⟩
  · have hscan0 := regulationScan_singleton_stage o.jp c j hcne hj
    cases hk : j.isObjWithKey "regulations" with
    | false =>
      exfalso
      have hscan : regScanOf o =
          { events := [Event.stage "regulation" c], resp := some j,
            exn := some "Invalid regulations response format" } := by
        simp only [regScanOf, hcall, hscan0, hk]
        simp
      rw [hscan] at h1
      simp at h1
    | true =>
      have hscan : regScanOf o =
          { events := [Event.stage "regulation" c], resp := some j,
            exn := none } := by
        simp only [regScanOf, hcall, hscan0, hk]
        simp
      have h2j : regulationsEmpty (some j) = true := by
        rw [hscan] at h2
        exact h2
      have hstage := stage1_of_scan_empty o [Event.stage "regulation" c]
        (some j) hscan h2j
      have hstream := analyzeStream_of_halt o _ hstage
      refine ⟨Event.stage "regulation" c, by simpa using hstream, Or.inl rfl, ?_⟩
      intro ev hm
      rw [hstream] at hm
      simp only [List.cons_append, List.nil_append, List.mem_cons,
        List.not_mem_nil, or_false] at hm
      rcases hm with rfl | rfl
      · exact ⟨fun hq => absurd hq (show ("regulation" : String) ≠ "article" by decide),
          fun hq => absurd hq (show ("regulation" : String) ≠ "citation" by decide),
          fun hq => absurd hq (show ("regulation" : String) ≠ "related_document" by decide),
          fun hq => absurd hq (show ("regulation" : String) ≠ "summary" by decide)⟩
      · exact ⟨fun hq => absurd hq (show ("error" : String) ≠ "article" by decide),
          fun hq => absurd hq (show ("error" : String) ≠ "citation" by decide),
          fun hq => absurd hq (show ("error" : String) ≠ "related_document" by decide),
          fun hq => absurd hq (show ("error" : String) ≠ "summary" by decide)⟩

/-- C3 witness: the amended shape at run B. -/
theorem zero_regulations_stream_shape_witness :
    ∃ e, analyzeStream oracleB = [e, Event.error "No valid regulations found"] ∧
      (e.eventType = "regulation" ∨ e.eventType = "error") ∧
      ∀ ev ∈ analyzeStream oracleB,
        ev.eventType ≠ "article" ∧ ev.eventType ≠ "citation" ∧
        ev.eventType ≠ "related_document" ∧ ev.eventType ≠ "summary" :=
  zero_regulations_stream_shape oracleB rfl rfl

/-! ### Claim C4 -/

/-- C4 counterexample: in run C the regulations-stage generation call
returns output that parses as valid JSON (`[]`) but misses the required
top-level `regulations` key; instead of being recovered locally, the failure
raises (api.py line 415) and TERMINATES the run with a terminal `Analysis
error` event — no later stage proceeds and no summary or article event ever
appears. -/
theorem regulations_missing_key_terminates_run_cex :
    analyzeStream oracleC =
      [Event.stage "regulation" "[]",
       Event.error "Analysis error: Invalid regulations response format"] ∧
    (analyzeStream oracleC).countP (fun e => e.eventType == "summary") = 0 ∧
    (analyzeStream oracleC).countP (fun e => e.eventType == "article") = 0 :=
  ⟨rfl, rfl, rfl⟩

/-- C4 (amended): for every articles-stage or citations-stage generation
call whose concatenated output does not parse as valid structured data, the
failure is recovered locally into a single error StageEvent scoped to the
failing unit — the unit contributes exactly that error event and no items —
and the run is never terminated by it: the stream still ends with the
summary call's events.  The regulations stage is the exception the
counterexample exhibits: there, output that parses as valid JSON but is
missing the required `regulations` key raises (api.py line 415) and
terminates the run with a terminal `Analysis error` event, no later stage
proceeding. -/
theorem fanout_invalid_json_recovered_locally (o : Oracle)
    (evs : List Event) (resp : Json) (units : List Json)
    (h : stage1 o = Stage1Result.proceed evs resp units) :
    (∀ (i : Nat) (hi : i < units.length) (rv : Json) (frags : List String),
      (units.get ⟨i, hi⟩).pyIndex "regulation" = some rv →
      o.articlesUnit i = StreamResult.ok frags →
      nonEmptyChunks frags ≠ [] →
      o.jp (concatStrs (nonEmptyChunks frags)) = none →
      processRegulationArticles o.jp (units.get ⟨i, hi⟩) (o.articlesUnit i) =
        ([Event.error "Invalid response format for article"], none)) ∧
    (∀ (j : Nat) (hj : j < (articleResults o).length) (rv av : Json)
        (frags : List String),
      ((articleResults o).get ⟨j, hj⟩).pyIndex "regulation" = some rv →
      ((articleResults o).get ⟨j, hj⟩).pyIndex "article" = some av →
      o.citationsUnit j = StreamResult.ok frags →
      nonEmptyChunks frags ≠ [] →
      o.jp (concatStrs (nonEmptyChunks frags)) = none →
      processArticleCitations o.jp ((articleResults o).get ⟨j, hj⟩)
          (o.citationsUnit j) =
        ([Event.error "Invalid response format for citation"], [])) ∧
    ∃ pre, analyzeStream o =
      pre ++ callLLMWithTemplate o.jp "summary" o.summaryStream := by
  refine ⟨?_, ?_, ?_⟩
  · intro i hi rv frags hreg hfr hne hbad
    have hemp : (nonEmptyChunks frags).isEmpty = false := by
      cases hcc : nonEmptyChunks frags with
      | nil => exact absurd hcc hne
      | cons a as => rfl
    simp only [processRegulationArticles, hreg, hfr, callLLMWithTemplate,
      hemp, hbad]
    simp [articlesScan]
  · intro j hj rv av frags hreg hart hfr hne hbad
    have hemp : (nonEmptyChunks frags).isEmpty = false := by
      cases hcc : nonEmptyChunks frags with
      | nil => exact absurd hcc hne
      | cons a as => rfl
    simp only [processArticleCitations, hreg, hart, hfr, callLLMWithTemplate,
      hemp, hbad]
    simp [citationsScan]
  · rw [analyzeStream_of_proceed o evs resp units h]
    exact ⟨_, rfl⟩

/-- C4 witness: run F, whose articles unit 0 and (single) citations unit
both returned invalid JSON — each is recovered into exactly one per-unit
error event and the stream still ends with the summary call's events. -/
theorem fanout_invalid_json_recovered_locally_witness :
    processRegulationArticles oracleF.jp
        (([Json.obj [("regulation", Json.str "R1")],
           Json.obj [("regulation", Json.str "R2")]] : List Json).get
          ⟨0, by decide⟩)
        (oracleF.articlesUnit 0) =
      ([Event.error "Invalid response format for article"], none) ∧
    processArticleCitations oracleF.jp
        ((articleResults oracleF).get ⟨0, by decide⟩) (oracleF.citationsUnit 0) =
      ([Event.error "Invalid response format for citation"], []) ∧
    ∃ pre, analyzeStream oracleF =
      pre ++ callLLMWithTemplate oracleF.jp "summary" oracleF.summaryStream := by
  have H := fanout_invalid_json_recovered_locally oracleF
    [Event.stage "regulation" regR12Str] regR12Json
    [Json.obj [("regulation", Json.str "R1")],
     Json.obj [("regulation", Json.str "R2")]] rfl
  exact ⟨H.1 0 (by decide) (Json.str "R1") ["bad!"] rfl rfl (by decide) rfl,
    H.2.1 0 (by decide) (Json.str "R2") (Json.str "A") ["worse!"] rfl rfl rfl
      (by decide) rfl,
    H.2.2⟩

/-! ### Claim C5 -/

/-- C5 counterexample: in run E the only emitted article has key (R, A), yet
the citation the generation service returned for it carries key (X, Y);
the pipeline accumulates it verbatim into the results forwarded to the
summary stage, so a citation whose key matches no emitted article IS
accumulated. -/
theorem orphan_citation_accumulated_cex :
    articleResults oracleE = [artRAJson] ∧
    citationResults oracleE = [citXYJson] ∧
    jsonKeyPair citXYJson = some (Json.str "X", Json.str "Y") ∧
    jsonKeyPair artRAJson = some (Json.str "R", Json.str "A") ∧
    ∀ a ∈ articleResults oracleE, jsonKeyPair citXYJson ≠ jsonKeyPair a := by
  refine ⟨rfl, rfl, rfl, rfl, ?_⟩
  intro a ha
  have hlist : articleResults oracleE = [artRAJson] := rfl
  rw [hlist] at ha
  have ha2 : a = artRAJson := by simpa using ha
  subst ha2
  rw [show jsonKeyPair citXYJson = some (Json.str "X", Json.str "Y") from rfl,
    show jsonKeyPair artRAJson = some (Json.str "R", Json.str "A") from rfl]
  simp

/-- C5 (amended): every citation accumulated into the results forwarded to
the summary stage originates from the citations call of some emitted
article (one fan-out unit per article, in order), but its own
(regulation, article) fields are taken verbatim from the generation output
and are never validated against the article list — a citation whose key
matches no emitted article is accumulated all the same (see the
counterexample). -/
theorem citations_accumulated_verbatim_from_article_calls (o : Oracle)
    (evs : List Event) (resp : Json) (units : List Json)
    (h : stage1 o = Stage1Result.proceed evs resp units) :
    ∀ c ∈ citationResults o,
      ∃ p ∈ stage4Results o (articleResults o), c ∈ p.2 := by
  intro c hc
  rw [citationResults_of_proceed o evs resp units h] at hc
  rw [articleResults_of_proceed o evs resp units h]
  obtain ⟨l, hl, hcl⟩ := List.mem_flatten.mp hc
  obtain ⟨p, hp, rfl⟩ := List.mem_map.mp hl
  exact ⟨p, hp, hcl⟩

/-- C5 witness: the orphan citation of run E indeed originates from the
(single) per-article citations call. -/
theorem citations_accumulated_verbatim_from_article_calls_witness :
    citXYJson ∈ citationResults oracleE ∧
    ∃ p ∈ stage4Results oracleE (articleResults oracleE), citXYJson ∈ p.2 := by
  have hmem : citXYJson ∈ citationResults oracleE := by
    have : citationResults oracleE = [citXYJson] := rfl
    rw [this]
    exact List.mem_cons_self _ _
  exact ⟨hmem, citations_accumulated_verbatim_from_article_calls oracleE
    [Event.stage "regulation" regRStr] regRJson
    [Json.obj [("regulation", Json.str "R")]] rfl citXYJson hmem⟩
